import Mathlib

/-
Verification development for the dashboard state aggregator
(src/dashboard/state_aggregator.py).

The aggregator is embedded shallowly:

- Python dictionaries produced by protobuf decoding are modelled as
  association lists over string keys (type Record below), with Python
  dict semantics: insertion overwrites an existing binding in place and
  otherwise appends at the end.
- Values stored in a record are modelled by the inductive JVal (strings,
  integers, booleans, nested field mappings); Python truthiness and the
  comparison of a value against a filter string are made explicit.
- Fallible code paths (KeyError from a missing dictionary key, an
  exception crossing asyncio.gather, ZeroDivisionError in the summary)
  are modelled with Except String.
- The asynchronous fan-out is modelled by passing, per registered peer,
  the settled outcome of its sub-request: Except String (Option reply),
  where Except.error is a raised exception and none is a falsy reply.
  asyncio.gather is called by the source without return_exceptions set,
  so a raised sub-request exception propagates; the gather function
  below models that.
- Collaborators that live outside src/ (message decoding, field
  allow-lists, the memory-table construction, the job table, the node
  resource summary) are modelled from the spec where a claim needs them;
  each such definition carries a doc comment saying so.
-/

/-- Values stored in a decoded message field mapping: strings, integers,
booleans and nested mappings. -/
inductive JVal where
  | s (v : String)
  | n (v : Int)
  | b (v : Bool)
  | obj (v : List (String × JVal))

/-- A decoded message as a field mapping, Python-dict style. -/
abbrev Record := List (String × JVal)

/-- Python d.get(k): the first binding of k, if any. Dictionaries built by
the aggregator have unique keys, and insertion keeps the original binding
position, so first-match lookup is exact. -/
def dlookup {α : Type} : List (String × α) → String → Option α
  | [], _ => none
  | (k', v) :: rest, k => if k = k' then some v else dlookup rest k

/-- Python d[k] = v: overwrite an existing binding in place, else append. -/
def dinsert {α : Type} (k : String) (v : α) : List (String × α) → List (String × α)
  | [] => [(k, v)]
  | (k', v') :: rest => if k = k' then (k, v) :: rest else (k', v') :: dinsert k v rest

/-- Python del d[k]: drop the binding of k. -/
def dremove {α : Type} (k : String) (m : List (String × α)) : List (String × α) :=
  m.filter (fun p => p.1 ≠ k)

/-- Python truthiness of a stored value: empty string, zero, False and the
empty mapping are falsy. -/
def JVal.truthy : JVal → Bool
  | .s v => v ≠ ""
  | .n v => v ≠ 0
  | .b v => v
  | .obj m => !m.isEmpty

/-- Python equality data != value where value is a string: only a string
value can compare equal to a string. -/
def JVal.eqStr : JVal → String → Bool
  | .s x, v => x = v
  | _, _ => false

/-- Python str.split(sep) over the character list: never collapses
adjacent separators, and the empty string splits into one empty piece. -/
def splitSep (sep : Char) : List Char → List (List Char)
  | [] => [[]]
  | c :: rest =>
    match splitSep sep rest with
    | h :: t => if c = sep then [] :: h :: t else (c :: h) :: t
    | [] => if c = sep then [[], []] else [[c]]

/-- Python s.split(sep) for a one-character separator. -/
def pySplit (s : String) (sep : Char) : List String :=
  (splitSep sep s.toList).map (fun cs => String.mk cs)

/-- Lines 81-86: build kv_filters from the comma-separated clauses. Each
clause is split on every equals sign; only a clause splitting into exactly
two tokens is recorded, the second token overwriting any earlier binding
of the first (Python dict assignment). -/
def parse_kv_filters (kvs : List String) : List (String × String) :=
  kvs.foldl
    (fun acc kv =>
      match pySplit kv '=' with
      | [k, v] => dinsert k v acc
      | _ => acc)
    []

/-- Lines 91-98: one kv_filters entry against one record. The record is
kept for this entry iff the field is present, truthy, and equal to the
clause value. In the source a falsy field breaks out of the loop while a
mere mismatch only clears the flag; both leave match False, so the final
flag is this conjunction over all entries. -/
def matchEntry (d : Record) (k v : String) : Bool :=
  match dlookup d k with
  | none => false
  | some x => x.truthy && x.eqStr v

/-- Lines 89-100: the final match flag for one record. -/
def matchRecord (kvf : List (String × String)) (d : Record) : Bool :=
  kvf.all (fun cv => matchEntry d cv.1 cv.2)

/-- Lines 80-102 of StateAPIManager._filter, after the filter string has
been split on commas: records matching every kv_filters entry, in their
original order. -/
def _filter_clauses (kvs : List String) (data : List Record) : List Record :=
  data.filter (matchRecord (parse_kv_filters kvs))

/-- StateAPIManager._filter: split the filter string on commas, parse the
clauses, keep the matching records. -/
def _filter (filters : String) (data : List Record) : List Record :=
  _filter_clauses (pySplit filters ',') data

/-- Line 38: the static coordination-service (GCS) failure warning. -/
def GCS_QUERY_FAILURE_WARNING : String :=
  "Failed to query data from GCS. It is due to " ++
  "(1) GCS is unexpectedly failed. " ++
  "(2) GCS is overloaded by lots of work. " ++
  "(3) There\x27s an uexpected network issues. Please check the GCS logs to " ++
  "find the root cause."

/-- Line 45: the raylet partial-failure warning template, applied to its
two format arguments. -/
def RAYLET_QUERY_FAILURE_WARNING (total network_failures : Nat) : String :=
  "Failed to query data from some raylets. You might have data loss. " ++
  "Queryed " ++ toString total ++ " raylets " ++
  "and " ++ toString network_failures ++ " raylets failed to reply. It is due to " ++
  "(1) Raylet is unexpectedly failed. " ++
  "(2) Raylet is overloaded by lots of work. " ++
  "(3) There\x27s an uexpected network issues. Please check the Raylet logs to " ++
  "find the root cause."

/-- Line 54: the agent partial-failure warning template, applied to its
two format arguments. -/
def AGENT_QUERY_FAILURE_WARNING (total network_failures : Nat) : String :=
  "Failed to query data from some Ray agents. You might have data loss. " ++
  "Queryed " ++ toString total ++ " Ray agents " ++
  "and " ++ toString network_failures ++ " Ray agents failed to reply. It is due to " ++
  "(1) Ray agent is unexpectedly failed. " ++
  "(2) Ray agent is overloaded by lots of work. " ++
  "(3) There\x27s an uexpected network issues. Please check the Ray agent logs to " ++
  "find the root cause."

/-- ListApiOptions (ray.experimental.state.common): per-call options, as
constructed at line 381 with timeout, limit and filter. -/
structure ListApiOptions where
  timeout : Nat
  limit : Nat
  filter : String

/-- Lines 30-35: the uniform result envelope. Both fields default to
Python None, modelled as none. -/
structure StateApiResult (α : Type) where
  data : Option α := none
  warnings : Option (List String) := none

/-- Python lexicographic comparison of character lists by code point. -/
def lexLe : List Char → List Char → Bool
  | [], _ => true
  | _ :: _, [] => false
  | a :: as, b :: bs => if a = b then lexLe as bs else decide (a < b)

/-- Python string comparison a <= b: lexicographic by code point. -/
def strLe (a b : String) : Bool := lexLe a.toList b.toList

/-- Sort-key extraction entry[k] for identifier keys, which are decoded
hex strings. Missing or non-string keys are mapped to the empty string;
list operations only reach this after checking presence. -/
def idKey (k : String) (d : Record) : String :=
  match dlookup d k with
  | some (.s v) => v
  | _ => ""

/-- Sort-key extraction entry[k] for the integer ref_cnt key. -/
def intKey (k : String) (d : Record) : Int :=
  match dlookup d k with
  | some (.n v) => v
  | _ => 0

/-- Python result.sort(key=lambda entry: entry[k]) for a string-valued
key: list.sort precomputes every key, so a record with the key missing
raises KeyError; otherwise the sort is stable and ascending. -/
def sortByStrKey (k : String) (l : List Record) : Except String (List Record) :=
  if l.all (fun d => (dlookup d k).isSome) then
    .ok (l.mergeSort (fun a b => strLe (idKey k a) (idKey k b)))
  else .error "KeyError"

/-- Python result.sort(key=lambda entry: entry[k]) for the integer-valued
ref_cnt key. -/
def sortByIntKey (k : String) (l : List Record) : Except String (List Record) :=
  if l.all (fun d => (dlookup d k).isSome) then
    .ok (l.mergeSort (fun a b => decide (intKey k a ≤ intKey k b)))
  else .error "KeyError"

/-- The dict comprehension keying records by their identifier, in list
order; a duplicate identifier overwrites the earlier entry in place. -/
def keyBy (key : Record → String) (l : List Record) : List (String × Record) :=
  l.foldl (fun acc d => dinsert (key d) d acc) []

/-- Keyed list result: actor_id (or the other canonical identifiers)
mapped to the record. -/
abbrev KeyedData := List (String × Record)

/-- Lines 104-128, StateAPIManager.list_actors. The reply is the settled
value of get_all_actor_info: none models a falsy reply. Message decoding
(message_to_dict) and the ActorState field allow-list (filter_fields, both
outside src/) are modelled as the identity on the already-decoded field
mappings carried by the reply. A falsy reply returns only the GCS warning;
otherwise the records are filtered, sorted by actor_id (KeyError when a
record lacks it) and keyed, truncated to the limit. -/
def list_actors (reply : Option (List Record)) (option : ListApiOptions) :
    Except String (StateApiResult KeyedData) :=
  match reply with
  | none => .ok { warnings := some [GCS_QUERY_FAILURE_WARNING] }
  | some actor_table_data =>
    let result := _filter option.filter actor_table_data
    match sortByStrKey "actor_id" result with
    | .error e => .error e
    | .ok sorted => .ok { data := some (keyBy (idKey "actor_id") (sorted.take option.limit)) }

/-- Lines 130-156, StateAPIManager.list_placement_groups: same shape as
list_actors, keyed by placement_group_id. -/
def list_placement_groups (reply : Option (List Record)) (option : ListApiOptions) :
    Except String (StateApiResult KeyedData) :=
  match reply with
  | none => .ok { warnings := some [GCS_QUERY_FAILURE_WARNING] }
  | some placement_group_table_data =>
    let result := _filter option.filter placement_group_table_data
    match sortByStrKey "placement_group_id" result with
    | .error e => .error e
    | .ok sorted =>
      .ok { data := some (keyBy (idKey "placement_group_id") (sorted.take option.limit)) }

/-- Lines 158-180, StateAPIManager.list_nodes: same shape as list_actors,
keyed by node_id. -/
def list_nodes (reply : Option (List Record)) (option : ListApiOptions) :
    Except String (StateApiResult KeyedData) :=
  match reply with
  | none => .ok { warnings := some [GCS_QUERY_FAILURE_WARNING] }
  | some node_info_list =>
    let result := _filter option.filter node_info_list
    match sortByStrKey "node_id" result with
    | .error e => .error e
    | .ok sorted => .ok { data := some (keyBy (idKey "node_id") (sorted.take option.limit)) }

/-- The per-message loop over a fallible per-record step: records are
processed in order and the first raised exception propagates. -/
def mapExcept {α β : Type} (f : α → Except String β) : List α → Except String (List β)
  | [] => .ok []
  | a :: rest =>
    match f a with
    | .error e => .error e
    | .ok b =>
      match mapExcept f rest with
      | .error e => .error e
      | .ok bs => .ok (b :: bs)

/-- Line 198: data with worker_id copied out of the nested worker_address
mapping. A missing worker_address or worker_id raises KeyError; a
non-mapping worker_address raises TypeError. -/
def workerTransform (d : Record) : Except String Record :=
  match dlookup d "worker_address" with
  | some (.obj wa) =>
    match dlookup wa "worker_id" with
    | some wid => .ok (dinsert "worker_id" wid d)
    | none => .error "KeyError"
  | some _ => .error "TypeError"
  | none => .error "KeyError"

/-- Lines 182-207, StateAPIManager.list_workers: like list_actors but each
record first gets worker_id hoisted from worker_address, and the output is
keyed by worker_id. -/
def list_workers (reply : Option (List Record)) (option : ListApiOptions) :
    Except String (StateApiResult KeyedData) :=
  match reply with
  | none => .ok { warnings := some [GCS_QUERY_FAILURE_WARNING] }
  | some worker_table_data =>
    match mapExcept workerTransform worker_table_data with
    | .error e => .error e
    | .ok result =>
      let result := _filter option.filter result
      match sortByStrKey "worker_id" result with
      | .error e => .error e
      | .ok sorted => .ok { data := some (keyBy (idKey "worker_id") (sorted.take option.limit)) }

/-- Modelled from the spec: get_job_info (StateDataSourceClient, outside
src/) returns the coordination-service job table, a mapping from job
identifier to the per-job record, matching the Dict[str, JobInfo]
alternative declared for StateApiResult.data at line 33. -/
abbrev JobTable := List (String × Record)

/-- The call self._filter(option.filter, result) at line 212 where result
is the job-table dictionary rather than a list: Python iterates a
dictionary by its keys, so each d in the record loop is a key string.
With no parsed clause every key is appended; with any parsed clause the
first iteration calls d.get on a string and raises AttributeError. -/
def _filter_on_dict (filters : String) (data : JobTable) : Except String (List String) :=
  match parse_kv_filters (pySplit filters ',') with
  | [] => .ok (data.map (fun p => p.1))
  | _ :: _ =>
    match data with
    | [] => .ok []
    | _ :: _ => .error "AttributeError"

/-- Lines 209-215, StateAPIManager.list_jobs: the job table is passed
straight through _filter (iterating its keys), an empty result yields the
GCS warning, otherwise the filtered value itself is returned as data. -/
def list_jobs (job_info : JobTable) (option : ListApiOptions) :
    Except String (StateApiResult (List String)) :=
  match _filter_on_dict option.filter job_info with
  | .error e => .error e
  | .ok result =>
    if result.isEmpty then .ok { warnings := some [GCS_QUERY_FAILURE_WARNING] }
    else .ok { data := some result }

/-- asyncio.gather over the per-peer sub-requests, as called at lines
225-230 without return_exceptions=True: a raised sub-request exception
propagates out of the gather (the earliest in peer order under the
deterministic embedding); otherwise the list of settled replies is
returned in peer order. -/
def gather {α : Type} : List (Except String α) → Except String (List α)
  | [] => .ok []
  | .error e :: _ => .error e
  | .ok a :: rest =>
    match gather rest with
    | .error e => .error e
    | .ok as' => .ok (a :: as')

/-- A get_task_info reply: its task_info_entries, each already decoded to
a field mapping (message_to_dict and the TaskState allow-list live outside
src/ and are modelled as the identity). -/
structure TaskReply where
  task_info_entries : List Record

/-- Lines 232-246: the reply loop of list_tasks, counting falsy replies
and concatenating the decoded entries of the truthy ones, in peer order. -/
def tasksLoop : List (Option TaskReply) → Nat × List Record
  | [] => (0, [])
  | none :: rest =>
    let p := tasksLoop rest
    (p.1 + 1, p.2)
  | some reply :: rest =>
    let p := tasksLoop rest
    (p.1, reply.task_info_entries ++ p.2)

/-- Lines 217-264, StateAPIManager.list_tasks. Each outcome is a settled
per-peer sub-request: Except.error a raised exception, none a falsy
reply. The warning is attached iff the failure count is nonzero and
carries the peer total and the failure count. -/
def list_tasks (outcomes : List (Except String (Option TaskReply))) (option : ListApiOptions) :
    Except String (StateApiResult KeyedData) :=
  match gather outcomes with
  | .error e => .error e
  | .ok replies =>
    let network_failures := (tasksLoop replies).1
    let result := (tasksLoop replies).2
    let warnings :=
      if network_failures ≠ 0 then
        some [RAYLET_QUERY_FAILURE_WARNING replies.length network_failures]
      else none
    let result := _filter option.filter result
    match sortByStrKey "task_id" result with
    | .error e => .error e
    | .ok sorted =>
      .ok { data := some (keyBy (idKey "task_id") (sorted.take option.limit)),
            warnings := warnings }

/-- One core_worker_stat message of a get_object_info reply. Modelled from
the spec: the low-level worker statistics are kept abstract except for the
object entries they expand into under construct_memory_table. -/
structure CoreWorkerStat where
  entries : List Record

/-- A get_object_info reply: its core_workers_stats. -/
structure ObjectReply where
  core_workers_stats : List CoreWorkerStat

/-- Modelled from the spec: memory_utils.construct_memory_table (outside
src/) summarizes the collected per-worker statistics into a table of
object entries, one worker expanding into its several object records,
each carrying its identifier under object_ref. -/
def construct_memory_table (worker_stats : List CoreWorkerStat) : List Record :=
  worker_stats.flatMap (fun ws => ws.entries)

/-- Lines 281-299: the reply loop of list_objects, counting falsy replies
and collecting the worker statistics of the truthy ones, in peer order. -/
def objectsLoop : List (Option ObjectReply) → Nat × List CoreWorkerStat
  | [] => (0, [])
  | none :: rest =>
    let p := objectsLoop rest
    (p.1 + 1, p.2)
  | some reply :: rest =>
    let p := objectsLoop rest
    (p.1, reply.core_workers_stats ++ p.2)

/-- Lines 304-310: one memory-table entry renamed, data[object_id] =
data[object_ref] then del data[object_ref]; a missing object_ref raises
KeyError. -/
def objectRename (d : Record) : Except String Record :=
  match dlookup d "object_ref" with
  | none => .error "KeyError"
  | some v => .ok (dremove "object_ref" (dinsert "object_id" v d))

/-- The total form of objectRename used to state provenance; on records
that carry object_ref the two agree. -/
def objectRenameT (d : Record) : Record :=
  dremove "object_ref" (dinsert "object_id" ((dlookup d "object_ref").getD (JVal.s "")) d)

/-- Lines 266-329, StateAPIManager.list_objects: gather, collect worker
statistics from the truthy replies, expand them through the memory table,
rename object_ref to object_id, then filter, sort by object_id and key.
The warning is attached iff the failure count is nonzero. -/
def list_objects (outcomes : List (Except String (Option ObjectReply))) (option : ListApiOptions) :
    Except String (StateApiResult KeyedData) :=
  match gather outcomes with
  | .error e => .error e
  | .ok replies =>
    let network_failures := (objectsLoop replies).1
    let worker_stats := (objectsLoop replies).2
    match mapExcept objectRename (construct_memory_table worker_stats) with
    | .error e => .error e
    | .ok result =>
      let warnings :=
        if network_failures ≠ 0 then
          some [RAYLET_QUERY_FAILURE_WARNING replies.length network_failures]
        else none
      let result := _filter option.filter result
      match sortByStrKey "object_id" result with
      | .error e => .error e
      | .ok sorted =>
        .ok { data := some (keyBy (idKey "object_id") (sorted.take option.limit)),
              warnings := warnings }

/-- A get_runtime_envs_info reply: its runtime_env_states, each already
decoded to a field mapping. -/
structure RuntimeEnvReply where
  runtime_env_states : List Record

/-- Modelled from the spec: RuntimeEnv.deserialize(...).to_dict (outside
src/) decodes the serialized runtime environment; no claim depends on its
contents, so the decode is modelled as the identity on the stored value. -/
def runtimeEnvDecode (v : JVal) : JVal := v

/-- Lines 356-359: one runtime-env state record with its runtime_env field
decoded in place; a missing runtime_env raises KeyError. -/
def decodeREnv (d : Record) : Except String Record :=
  match dlookup d "runtime_env" with
  | none => .error "KeyError"
  | some v => .ok (dinsert "runtime_env" (runtimeEnvDecode v) d)

/-- The total form of decodeREnv used to state provenance. -/
def decodeREnvT (d : Record) : Record :=
  dinsert "runtime_env" (runtimeEnvDecode ((dlookup d "runtime_env").getD (JVal.s ""))) d

/-- Lines 347-361: the reply loop of list_runtime_envs, counting falsy
replies and decoding the states of the truthy ones, in peer order. -/
def envsLoop : List (Option RuntimeEnvReply) → Except String (Nat × List Record)
  | [] => .ok (0, [])
  | none :: rest =>
    match envsLoop rest with
    | .error e => .error e
    | .ok p => .ok (p.1 + 1, p.2)
  | some reply :: rest =>
    match mapExcept decodeREnv reply.runtime_env_states with
    | .error e => .error e
    | .ok ds =>
      match envsLoop rest with
      | .error e => .error e
      | .ok p => .ok (p.1, ds ++ p.2)

/-- Lines 331-378, StateAPIManager.list_runtime_envs: gather over the
registered agents, decode the states of the truthy replies, filter, sort
by the integer ref_cnt and truncate. There is no canonical identifier, so
the data is the plain truncated list. The warning uses the agent template
and is attached iff the failure count is nonzero. -/
def list_runtime_envs (outcomes : List (Except String (Option RuntimeEnvReply)))
    (option : ListApiOptions) : Except String (StateApiResult (List Record)) :=
  match gather outcomes with
  | .error e => .error e
  | .ok replies =>
    match envsLoop replies with
    | .error e => .error e
    | .ok fr =>
      let warnings :=
        if fr.1 ≠ 0 then
          some [AGENT_QUERY_FAILURE_WARNING replies.length fr.1]
        else none
      let result := _filter option.filter fr.2
      match sortByIntKey "ref_cnt" result with
      | .error e => .error e
      | .ok sorted => .ok { data := some (sorted.take option.limit), warnings := warnings }

/-- Per-class or per-name lifecycle counters: a Python defaultdict(int),
so a missing counter reads as zero. -/
abbrev Counters := List (String × Nat)

/-- Python counters[key] += 1 on a defaultdict(int). -/
def cincr (key : String) (c : Counters) : Counters :=
  dinsert key ((dlookup c key).getD 0 + 1) c

/-- Python m[cls][key] += 1 where m maps a class or task name to its
defaultdict(int) of counters (the entry for cls being present, or read as
the fresh empty defaultdict the source just assigned). -/
def bump (m : List (String × Counters)) (cls key : String) : List (String × Counters) :=
  dinsert cls (cincr key ((dlookup m cls).getD [])) m

/-- The fields of one fetched actor record that the summary loop reads:
actor[address][raylet_id], actor[class_name] and actor[state]. -/
structure ActorInfo where
  raylet_id : String
  class_name : String
  state : String

/-- The fields of one fetched task record that the summary loop reads. -/
structure TaskInfo where
  name : String
  task_type : String
  scheduling_state : String

/-- The fields of one fetched worker record that the summary loop reads:
worker[worker_address][raylet_id] and worker[is_alive]. -/
structure WorkerInfo where
  raylet_id : String
  is_alive : Bool

/-- The per-node actors block node_to_summary[node_id][actors]: a
defaultdict(int) that holds the node total under cnt and, by the later
assignments, one nested counter mapping per class name. -/
structure NodeActors where
  cnt : Nat := 0
  per_class : List (String × Counters) := []

/-- The state threaded through the actor loop of summary, lines 426-465:
the per-node actors blocks and the cluster-wide per-class breakdown stored
under node_to_summary[actors] (absent and empty are not distinguished). -/
structure ActorsSummary where
  per_node : List (String × NodeActors) := []
  cluster : List (String × Counters) := []

/-- One iteration of the actor loop, lines 427-465. Note line 436: after
the guarded initialisation of lines 434-435, the cluster entry of the
class is unconditionally reassigned a fresh defaultdict(int), so the
cluster counters of that class restart at zero on every actor. -/
def summaryActorStep (st : ActorsSummary) (actor : ActorInfo) : ActorsSummary :=
  let node_id := actor.raylet_id
  -- lines 430-431: ensure node_to_summary[node_id][actors] exists
  let na := (dlookup st.per_node node_id).getD {}
  -- lines 432-435: ensure the cluster block and the class entry exist
  let cluster :=
    if (dlookup st.cluster actor.class_name).isNone then
      dinsert actor.class_name [] st.cluster
    else st.cluster
  -- line 436: unconditional reassignment of a fresh defaultdict(int)
  let cluster := dinsert actor.class_name [] cluster
  -- line 437: per-node total
  let na := { na with cnt := na.cnt + 1 }
  -- line 438: cluster per-class cnt
  let cluster := bump cluster actor.class_name "cnt"
  -- lines 439-442: ensure the per-node class entry exists
  let na :=
    if (dlookup na.per_class actor.class_name).isNone then
      { na with per_class := dinsert actor.class_name [] na.per_class }
    else na
  -- lines 443-465: per-state counters, per node and cluster-wide
  let stateKey :=
    if actor.state = "DEPENDENCIES_UNREADY" then some "dep_unready_cnt"
    else if actor.state = "PENDING_CREATION" then some "pending_cnt"
    else if actor.state = "ALIVE" then some "alive_cnt"
    else if actor.state = "RESTARTING" then some "restarting_cnt"
    else if actor.state = "DEAD" then some "dead_cnt"
    else none
  match stateKey with
  | some key =>
    { per_node :=
        dinsert node_id { na with per_class := bump na.per_class actor.class_name key }
          st.per_node,
      cluster := bump cluster actor.class_name key }
  | none =>
    { per_node := dinsert node_id na st.per_node, cluster := cluster }

/-- Lines 426-465: the actor loop of summary over the fetched actors, in
output order. -/
def summary_actors (actors : List ActorInfo) : ActorsSummary :=
  actors.foldl summaryActorStep {}

/-- Lines 467-481: the task loop of summary, building the cluster-wide
task-name breakdown and skipping actor-creation tasks. -/
def summaryTaskStep (m : List (String × Counters)) (task : TaskInfo) :
    List (String × Counters) :=
  if task.task_type = "ACTOR_CREATION_TASK" then m
  else
    let m := bump m task.name "cnt"
    if task.scheduling_state = "WAITING_FOR_DEPENDENCIES" then
      bump m task.name "wait_for_dep_cnt"
    else if task.scheduling_state = "SCHEDULED" then
      bump m task.name "scheduled_cnt"
    else if task.scheduling_state = "FINISHED" then
      bump m task.name "finished_cnt"
    else m

/-- Lines 467-481: the task loop of summary over the fetched tasks. -/
def summary_tasks (tasks : List TaskInfo) : List (String × Counters) :=
  tasks.foldl summaryTaskStep []

/-- Lines 483-489: the worker loop of summary, counting live workers per
node. -/
def summary_workers (workers : List WorkerInfo) : List (String × Nat) :=
  workers.foldl
    (fun m w => if w.is_alive then cincr w.raylet_id m else m)
    []

/-- Modelled from the spec: the raylet block of one entry of
DataOrganizer.get_all_node_summary (outside src/), restricted to the
fields the summary node loop reads. A node summary may omit
object_store_used_memory, which the source reads with .get(key, 0). -/
structure RayletSummary where
  nodeId : String
  object_store_used_memory : Option Int
  object_store_available_memory : Int

/-- Modelled from the spec: one entry of the externally supplied per-node
resource summary. The float-valued cpu, disk, network and memory metrics
that the loop merely formats into strings are outside the embedding
(floating point) and cannot raise ZeroDivisionError; only the raylet block
feeds the object-store division at lines 416-421. -/
structure NodeSummaryIn where
  raylet : RayletSummary

/-- Lines 397-424: the node loop of summary, keeping the object-store
utilisation ratio per node. The division at lines 416-421 raises
ZeroDivisionError when used + available is zero (with a missing used
memory read as zero). -/
def summary_nodes_loop (acc : List (String × Rat)) :
    List NodeSummaryIn → Except String (List (String × Rat))
  | [] => .ok acc
  | ns :: rest =>
    let used := ns.raylet.object_store_used_memory.getD 0
    let den := used + ns.raylet.object_store_available_memory
    if den = 0 then .error "ZeroDivisionError"
    else summary_nodes_loop (dinsert ns.raylet.nodeId ((used : Rat) / (den : Rat)) acc) rest

/-- Lines 397-424: the node loop of summary over every node summary. -/
def summary_nodes (all_node_summary : List NodeSummaryIn) :
    Except String (List (String × Rat)) :=
  summary_nodes_loop [] all_node_summary

/-- The rollup produced by summary: per-node object-store utilisation,
the actor breakdowns, the cluster task breakdown and the per-node live
worker counts (all stored by the source in the single node_to_summary
defaultdict, keyed by node id and the literal keys actors and tasks). -/
structure ClusterSummary where
  nodes : List (String × Rat)
  actors : ActorsSummary
  tasks : List (String × Counters)
  num_workers : List (String × Nat)

/-- Lines 380-492, StateAPIManager.summary, over the already-fetched
inputs: the externally supplied node summaries and the record fields read
from the three list operations called at lines 382-388. The node loop
runs first, so its ZeroDivisionError propagates out of summary. -/
def summary (all_node_summary : List NodeSummaryIn) (actors : List ActorInfo)
    (tasks : List TaskInfo) (workers : List WorkerInfo) : Except String ClusterSummary :=
  match summary_nodes all_node_summary with
  | .error e => .error e
  | .ok nodes =>
    .ok { nodes := nodes, actors := summary_actors actors,
          tasks := summary_tasks tasks, num_workers := summary_workers workers }

/-- The records contributed by the truthy (succeeding) task replies, in
peer order. -/
def succTaskRecords (replies : List (Option TaskReply)) : List Record :=
  replies.flatMap fun o =>
    match o with
    | some r => r.task_info_entries
    | none => []

/-- The worker statistics contributed by the truthy object replies. -/
def succWorkerStats (replies : List (Option ObjectReply)) : List CoreWorkerStat :=
  replies.flatMap fun o =>
    match o with
    | some r => r.core_workers_stats
    | none => []

/-- The runtime-env state records contributed by the truthy replies. -/
def succEnvStates (replies : List (Option RuntimeEnvReply)) : List Record :=
  replies.flatMap fun o =>
    match o with
    | some r => r.runtime_env_states
    | none => []

theorem mem_dinsert {α : Type} {k : String} {v : α} :
    ∀ {m : List (String × α)} {x : String × α}, x ∈ dinsert k v m → x = (k, v) ∨ x ∈ m := by
  intro m
  induction m with
  | nil => intro x h; simpa [dinsert] using h
  | cons p rest ih =>
    obtain ⟨k', v'⟩ := p
    intro x h
    by_cases hk : k = k'
    · rw [dinsert, if_pos hk] at h
      rcases List.mem_cons.mp h with h1 | h1
      · exact Or.inl h1
      · exact Or.inr (List.mem_cons_of_mem _ h1)
    · rw [dinsert, if_neg hk] at h
      rcases List.mem_cons.mp h with h1 | h1
      · exact Or.inr (h1 ▸ List.mem_cons_self _ _)
      · rcases ih h1 with h2 | h2
        · exact Or.inl h2
        · exact Or.inr (List.mem_cons_of_mem _ h2)

theorem dinsert_eq_append {α : Type} {k : String} (v : α) :
    ∀ {m : List (String × α)}, k ∉ m.map Prod.fst → dinsert k v m = m ++ [(k, v)] := by
  intro m
  induction m with
  | nil => intro; rfl
  | cons p rest ih =>
    obtain ⟨k', v'⟩ := p
    intro h
    simp only [List.map_cons, List.mem_cons] at h
    push_neg at h
    rw [dinsert, if_neg h.1, ih h.2]
    simp

theorem foldl_dinsert_pairs {α : Type} :
    ∀ (ps : List (String × α)) (acc : List (String × α)),
      ((acc ++ ps).map Prod.fst).Nodup →
      ps.foldl (fun a p => dinsert p.1 p.2 a) acc = acc ++ ps := by
  intro ps
  induction ps with
  | nil => intro acc _; simp
  | cons p rest ih =>
    obtain ⟨k, v⟩ := p
    intro acc h
    have hmid : (acc.map Prod.fst ++ k :: rest.map Prod.fst).Nodup := by
      simpa using h
    have hk : k ∉ acc.map Prod.fst := by
      have := (List.nodup_middle.mp hmid)
      intro hmem
      exact (List.nodup_cons.mp this).1 (List.mem_append_left _ hmem)
    have hstep : dinsert k v acc = acc ++ [(k, v)] := dinsert_eq_append v hk
    have hrest : (((acc ++ [(k, v)]) ++ rest).map Prod.fst).Nodup := by
      simpa using h
    calc ((k, v) :: rest).foldl (fun a p => dinsert p.1 p.2 a) acc
        = rest.foldl (fun a p => dinsert p.1 p.2 a) (dinsert k v acc) := by
          simp [List.foldl_cons]
      _ = rest.foldl (fun a p => dinsert p.1 p.2 a) (acc ++ [(k, v)]) := by rw [hstep]
      _ = (acc ++ [(k, v)]) ++ rest := ih (acc ++ [(k, v)]) hrest
      _ = acc ++ (k, v) :: rest := by simp

theorem keyBy_eq (key : Record → String) (l : List Record)
    (h : (l.map key).Nodup) : keyBy key l = l.map (fun d => (key d, d)) := by
  have hfold :
      keyBy key l =
        (l.map (fun d => (key d, d))).foldl (fun acc p => dinsert p.1 p.2 acc) [] := by
    rw [keyBy, List.foldl_map]
  rw [hfold, foldl_dinsert_pairs (l.map (fun d => (key d, d))) []]
  · simp
  · simpa [List.map_map, Function.comp] using h

theorem keyBy_length (key : Record → String) (l : List Record)
    (h : (l.map key).Nodup) : (keyBy key l).length = l.length := by
  rw [keyBy_eq key l h]; simp

theorem mem_foldl_dinsert (key : Record → String) :
    ∀ (l : List Record) (acc : List (String × Record)) {p : String × Record},
      p ∈ l.foldl (fun acc d => dinsert (key d) d acc) acc → p.2 ∈ l ∨ p ∈ acc := by
  intro l
  induction l with
  | nil => intro acc p h; exact Or.inr h
  | cons d rest ih =>
    intro acc p h
    rw [List.foldl_cons] at h
    rcases ih (dinsert (key d) d acc) h with h1 | h1
    · exact Or.inl (List.mem_cons_of_mem _ h1)
    · rcases mem_dinsert h1 with h2 | h2
      · exact Or.inl (by rw [show p.2 = d from congrArg Prod.snd h2]; exact List.mem_cons_self _ _)
      · exact Or.inr h2

theorem mem_keyBy (key : Record → String) (l : List Record) {p : String × Record}
    (h : p ∈ keyBy key l) : p.2 ∈ l := by
  rcases mem_foldl_dinsert key l [] h with h1 | h1
  · exact h1
  · simp at h1

theorem dlookup_dinsert {α : Type} (k k' : String) (v : α) :
    ∀ (m : List (String × α)),
      dlookup (dinsert k v m) k' = if k' = k then some v else dlookup m k' := by
  intro m
  induction m with
  | nil => simp [dinsert, dlookup]
  | cons p rest ih =>
    obtain ⟨k₀, v₀⟩ := p
    by_cases hk : k = k₀
    · subst hk
      rw [dinsert, if_pos rfl]
      by_cases hk' : k' = k
      · simp [dlookup, hk']
      · simp [dlookup, hk']
    · rw [dinsert, if_neg hk]
      by_cases hk' : k' = k₀
      · have h1 : ¬ k' = k := by rw [hk']; intro hc; exact hk hc.symm
        have h2 : ¬ k₀ = k := fun hc => hk hc.symm
        simp [dlookup, hk', h1, h2]
      · simp [dlookup, hk', ih]

theorem dlookup_dremove_ne {α : Type} (k k' : String) (h : k' ≠ k) :
    ∀ (m : List (String × α)), dlookup (dremove k m) k' = dlookup m k' := by
  intro m
  induction m with
  | nil => rfl
  | cons p rest ih =>
    obtain ⟨k₀, v₀⟩ := p
    by_cases hk : k₀ = k
    · subst hk
      have : ¬ k' = k₀ := h
      simp [dremove, dlookup, this] at ih ⊢
      simpa [dremove] using ih
    · by_cases hk' : k' = k₀
      · simp [dremove, dlookup, hk, hk']
      · simp [dremove, dlookup, hk, hk'] at ih ⊢
        simpa [dremove] using ih

theorem gather_map_ok {α : Type} : ∀ (l : List (Option α)),
    gather (l.map Except.ok) = .ok l := by
  intro l
  induction l with
  | nil => rfl
  | cons a rest ih => simp [gather, ih]

theorem gather_first_error {α : Type} (e : String) (post : List (Except String (Option α))) :
    ∀ (pre : List (Option α)),
      gather (pre.map Except.ok ++ Except.error e :: post) = .error e := by
  intro pre
  induction pre with
  | nil => rfl
  | cons a rest ih => simp [gather, ih]

theorem tasksLoop_eq : ∀ (replies : List (Option TaskReply)),
    tasksLoop replies =
      (replies.countP (fun r => r.isNone), succTaskRecords replies) := by
  intro replies
  induction replies with
  | nil => rfl
  | cons o rest ih =>
    cases o with
    | none => simp [tasksLoop, succTaskRecords, List.countP_cons, ih]
    | some r => simp [tasksLoop, succTaskRecords, List.countP_cons, ih]

theorem objectsLoop_eq : ∀ (replies : List (Option ObjectReply)),
    objectsLoop replies =
      (replies.countP (fun r => r.isNone), succWorkerStats replies) := by
  intro replies
  induction replies with
  | nil => rfl
  | cons o rest ih =>
    cases o with
    | none => simp [objectsLoop, succWorkerStats, List.countP_cons, ih]
    | some r => simp [objectsLoop, succWorkerStats, List.countP_cons, ih]

theorem mapExcept_eq_ok {α β : Type} {f : α → Except String β} {fT : α → β} :
    ∀ {l : List α}, (∀ d ∈ l, f d = .ok (fT d)) → mapExcept f l = .ok (l.map fT) := by
  intro l
  induction l with
  | nil => intro _; rfl
  | cons d rest ih =>
    intro h
    have hd := h d (List.mem_cons_self _ _)
    have hrest := ih (fun x hx => h x (List.mem_cons_of_mem _ hx))
    simp [mapExcept, hd, hrest]

theorem decodeREnv_ok {d : Record} (h : (dlookup d "runtime_env").isSome = true) :
    decodeREnv d = .ok (decodeREnvT d) := by
  rcases Option.isSome_iff_exists.mp h with ⟨v, hv⟩
  simp [decodeREnv, decodeREnvT, hv]

theorem objectRename_ok {d : Record} (h : (dlookup d "object_ref").isSome = true) :
    objectRename d = .ok (objectRenameT d) := by
  rcases Option.isSome_iff_exists.mp h with ⟨v, hv⟩
  simp [objectRename, objectRenameT, hv]

theorem succEnvStates_cons_some (r : RuntimeEnvReply) (rest : List (Option RuntimeEnvReply)) :
    succEnvStates (some r :: rest) = r.runtime_env_states ++ succEnvStates rest := by
  simp [succEnvStates]

theorem succEnvStates_cons_none (rest : List (Option RuntimeEnvReply)) :
    succEnvStates (none :: rest) = succEnvStates rest := by
  simp [succEnvStates]

theorem envsLoop_eq :
    ∀ (replies : List (Option RuntimeEnvReply)),
      (∀ d ∈ succEnvStates replies, (dlookup d "runtime_env").isSome = true) →
      envsLoop replies =
        .ok (replies.countP (fun r => r.isNone), (succEnvStates replies).map decodeREnvT) := by
  intro replies
  induction replies with
  | nil => intro _; rfl
  | cons o rest ih =>
    intro h
    cases o with
    | none =>
      have hrest := ih (by
        intro d hd
        exact h d (by rw [succEnvStates_cons_none]; exact hd))
      simp [envsLoop, succEnvStates_cons_none, List.countP_cons, hrest]
    | some r =>
      have hstates : ∀ d ∈ r.runtime_env_states, decodeREnv d = .ok (decodeREnvT d) := by
        intro d hd
        exact decodeREnv_ok (h d (by rw [succEnvStates_cons_some]; exact List.mem_append_left _ hd))
      have hrest := ih (by
        intro d hd
        exact h d (by rw [succEnvStates_cons_some]; exact List.mem_append_right _ hd))
      simp [envsLoop, succEnvStates_cons_some, List.countP_cons, mapExcept_eq_ok hstates, hrest]

theorem _filter_subset (filters : String) (data : List Record) :
    ∀ {d : Record}, d ∈ _filter filters data → d ∈ data := by
  intro d h
  exact List.mem_of_mem_filter h

theorem sortByStrKey_ok {k : String} {l : List Record}
    (h : ∀ d ∈ l, (dlookup d k).isSome = true) :
    sortByStrKey k l = .ok (l.mergeSort (fun a b => strLe (idKey k a) (idKey k b))) := by
  rw [sortByStrKey, if_pos (List.all_eq_true.mpr h)]

theorem sortByStrKey_error {k : String} {l : List Record}
    (h : ∃ d ∈ l, dlookup d k = none) :
    sortByStrKey k l = .error "KeyError" := by
  rw [sortByStrKey, if_neg]
  intro hall
  obtain ⟨d, hd, hnone⟩ := h
  have := List.all_eq_true.mp hall d hd
  rw [hnone] at this
  simp at this

theorem sortByIntKey_ok {k : String} {l : List Record}
    (h : ∀ d ∈ l, (dlookup d k).isSome = true) :
    sortByIntKey k l = .ok (l.mergeSort (fun a b => decide (intKey k a ≤ intKey k b))) := by
  rw [sortByIntKey, if_pos (List.all_eq_true.mpr h)]

/-- Claim-side well-formedness of one filter clause, as the spec words it:
exactly one equals sign and two non-empty tokens. -/
def clauseOk (kv : String) : Bool :=
  match pySplit kv '=' with
  | [k, v] => !(k == "") && !(v == "")
  | _ => false

/-- The field-value pairs of the well-split clauses of a clause list, in
clause order, duplicates kept. -/
def clausePairs (kvs : List String) : List (String × String) :=
  kvs.filterMap fun kv =>
    match pySplit kv '=' with
    | [k, v] => some (k, v)
    | _ => none

/-- The predicate claim C4 describes, phrased from the words of the spec:
a record is kept iff for every clause of the filter string the named field
is present with string value equal to the clause value. -/
def specC4Keep (filters : String) (d : Record) : Bool :=
  (pySplit filters ',').all fun kv =>
    match pySplit kv '=' with
    | [k, v] =>
      match dlookup d k with
      | some (JVal.s x) => x == v
      | _ => false
    | _ => true

theorem parse_kv_filters_append_drop (kvs : List String) {kv : String}
    (h : (pySplit kv '=').length ≠ 2) :
    parse_kv_filters (kvs ++ [kv]) = parse_kv_filters kvs := by
  unfold parse_kv_filters
  rw [List.foldl_append]
  simp only [List.foldl_cons, List.foldl_nil]
  rcases hs : pySplit kv '=' with _ | ⟨a, _ | ⟨b, _ | ⟨c, tl⟩⟩⟩
  · rfl
  · rfl
  · rw [hs] at h; simp at h
  · rfl

theorem parse_kv_filters_append_apply (kvs : List String) {kv k v : String}
    (h : pySplit kv '=' = [k, v]) :
    parse_kv_filters (kvs ++ [kv]) = dinsert k v (parse_kv_filters kvs) := by
  unfold parse_kv_filters
  rw [List.foldl_append]
  simp only [List.foldl_cons, List.foldl_nil]
  rw [h]

theorem foldl_parse_eq_clausePairs :
    ∀ (kvs : List String) (acc : List (String × String)),
      ((acc ++ clausePairs kvs).map Prod.fst).Nodup →
      kvs.foldl
        (fun acc kv =>
          match pySplit kv '=' with
          | [k, v] => dinsert k v acc
          | _ => acc)
        acc = acc ++ clausePairs kvs := by
  intro kvs
  induction kvs with
  | nil => intro acc _; simp [clausePairs]
  | cons kv rest ih =>
    intro acc h
    simp only [List.foldl_cons]
    rcases hs : pySplit kv '=' with _ | ⟨a, _ | ⟨b, _ | ⟨c, tl⟩⟩⟩
    · have hpairs : clausePairs (kv :: rest) = clausePairs rest := by
        simp [clausePairs, hs]
      rw [hpairs] at h
      rw [hpairs]
      exact ih acc h
    · have hpairs : clausePairs (kv :: rest) = clausePairs rest := by
        simp [clausePairs, hs]
      rw [hpairs] at h
      rw [hpairs]
      exact ih acc h
    · -- the clause parses as (a, b) and is recorded
      have hpairs : clausePairs (kv :: rest) = (a, b) :: clausePairs rest := by
        simp [clausePairs, hs]
      rw [hpairs] at h
      have hmid : (acc.map Prod.fst ++ a :: (clausePairs rest).map Prod.fst).Nodup := by
        simpa using h
      have ha : a ∉ acc.map Prod.fst := by
        have hcons := List.nodup_middle.mp hmid
        intro hmem
        exact (List.nodup_cons.mp hcons).1 (List.mem_append_left _ hmem)
      show List.foldl _ (dinsert a b acc) rest = acc ++ clausePairs (kv :: rest)
      rw [hpairs, dinsert_eq_append b ha, ih (acc ++ [(a, b)]) (by simpa using h)]
      simp
    · have hpairs : clausePairs (kv :: rest) = clausePairs rest := by
        simp [clausePairs, hs]
      rw [hpairs] at h
      rw [hpairs]
      exact ih acc h

theorem parse_kv_filters_eq_clausePairs (kvs : List String)
    (h : ((clausePairs kvs).map Prod.fst).Nodup) :
    parse_kv_filters kvs = clausePairs kvs := by
  unfold parse_kv_filters
  rw [foldl_parse_eq_clausePairs kvs [] (by simpa using h)]
  simp

theorem matchEntry_eq_spec {d : Record} {k v : String} (hv : v ≠ "") :
    matchEntry d k v =
      (match dlookup d k with
       | some (JVal.s x) => x == v
       | _ => false) := by
  unfold matchEntry
  cases h : dlookup d k with
  | none => rfl
  | some x =>
    cases x with
    | s w =>
      by_cases hw : w = v
      · subst hw
        simp [JVal.truthy, JVal.eqStr, hv]
      · simp [JVal.truthy, JVal.eqStr, hw]
    | n m => simp [JVal.truthy, JVal.eqStr]
    | b bv => simp [JVal.truthy, JVal.eqStr]
    | obj o => simp [JVal.truthy, JVal.eqStr]

theorem objectRenameT_has_id (d : Record) :
    (dlookup (objectRenameT d) "object_id").isSome = true := by
  unfold objectRenameT
  rw [dlookup_dremove_ne "object_ref" "object_id" (by decide)]
  rw [dlookup_dinsert]
  simp

theorem decodeREnvT_ref_cnt {d : Record} (h : (dlookup d "ref_cnt").isSome = true) :
    (dlookup (decodeREnvT d) "ref_cnt").isSome = true := by
  unfold decodeREnvT
  rw [dlookup_dinsert]
  simpa using h

theorem summary_nodes_loop_error :
    ∀ (l : List NodeSummaryIn) (acc : List (String × Rat)),
      (∃ ns ∈ l,
        ns.raylet.object_store_used_memory.getD 0 +
          ns.raylet.object_store_available_memory = 0) →
      summary_nodes_loop acc l = .error "ZeroDivisionError" := by
  intro l
  induction l with
  | nil => intro acc h; simp at h
  | cons ns rest ih =>
    intro acc h
    by_cases hden :
        ns.raylet.object_store_used_memory.getD 0 +
          ns.raylet.object_store_available_memory = 0
    · simp [summary_nodes_loop, hden]
    · rcases h with ⟨ns', hmem, hz⟩
      rcases List.mem_cons.mp hmem with h1 | h1
      · exact absurd (h1 ▸ hz) hden
      · simp only [summary_nodes_loop, hden, if_neg]
        exact ih _ ⟨ns', h1, hz⟩

/-- C1: the claim states that the cluster-wide actor-class breakdown of
summary counts every fetched actor, so that over actors of class Foo in
states ALIVE, DEAD, ALIVE the breakdown maps Foo to alive_cnt 2 and
dead_cnt 1 (and cnt 3). The code disagrees: line 436 unconditionally
reassigns the cluster entry of the class a fresh defaultdict(int) on every
actor (making the guarded initialisation of lines 434-435 dead), so the
cluster counters of a class only ever reflect the last actor of that
class. On the claimed input the breakdown maps Foo to cnt 1, alive_cnt 1,
dead_cnt 0 instead of cnt 3, alive_cnt 2, dead_cnt 1. -/
theorem C1_cluster_breakdown_counts_last_actor_only :
    (dlookup (summary_actors
        [⟨"n1", "Foo", "ALIVE"⟩, ⟨"n1", "Foo", "DEAD"⟩, ⟨"n1", "Foo", "ALIVE"⟩]).cluster
      "Foo").map
        (fun c => ((dlookup c "cnt").getD 0, (dlookup c "alive_cnt").getD 0,
                   (dlookup c "dead_cnt").getD 0)) = some (1, 1, 0) ∧
    some ((1, 1, 0) : Nat × Nat × Nat) ≠ some ((3, 2, 1) : Nat × Nat × Nat) :=
  ⟨by decide, by decide⟩

/-- C10: the summary node loop divides the object-store used memory by
used plus available (lines 416-421), so a node summary reporting both as
zero, or omitting used memory (read as 0 by .get) and reporting zero
available memory, makes the summary call raise ZeroDivisionError rather
than return a degraded result. -/
theorem C10_summary_raises_zero_division
    (l : List NodeSummaryIn) (actors : List ActorInfo) (tasks : List TaskInfo)
    (workers : List WorkerInfo) (ns : NodeSummaryIn)
    (hmem : ns ∈ l)
    (hused : ns.raylet.object_store_used_memory = none ∨
             ns.raylet.object_store_used_memory = some 0)
    (havail : ns.raylet.object_store_available_memory = 0) :
    summary l actors tasks workers = .error "ZeroDivisionError" := by
  have hden :
      ns.raylet.object_store_used_memory.getD 0 +
        ns.raylet.object_store_available_memory = 0 := by
    rcases hused with h | h <;> rw [h, havail] <;> rfl
  unfold summary summary_nodes
  rw [summary_nodes_loop_error l [] ⟨ns, hmem, hden⟩]

/-- Witness for C10 at a concrete node summary with used memory omitted
and zero available memory. -/
theorem C10_summary_raises_zero_division_witness :
    (⟨⟨"n1", none, 0⟩⟩ : NodeSummaryIn) ∈ [(⟨⟨"n1", none, 0⟩⟩ : NodeSummaryIn)] ∧
    summary [⟨⟨"n1", none, 0⟩⟩] [] [] [] = .error "ZeroDivisionError" :=
  ⟨List.mem_singleton.mpr rfl,
   C10_summary_raises_zero_division [⟨⟨"n1", none, 0⟩⟩] [] [] [] ⟨⟨"n1", none, 0⟩⟩
     (List.mem_singleton.mpr rfl) (Or.inl rfl) rfl⟩

/-- C7 counterexample: the claim states that a single-source list
operation given a falsy coordination-service reply returns data equal to
the empty mapping. The code returns StateApiResult(warnings=[...]) whose
data field keeps its None default, and None is not the empty mapping. -/
theorem C7_counterexample_data_is_none :
    list_actors none ⟨30, 10, ""⟩ =
      .ok { data := none, warnings := some [GCS_QUERY_FAILURE_WARNING] } ∧
    (none : Option KeyedData) ≠ some ([] : KeyedData) :=
  ⟨rfl, by simp⟩

/-- C7 as amended: for each single-source list operation (actors,
placement groups, nodes, workers), a falsy coordination-service reply
yields a result whose data is absent (Python None, not the empty mapping)
and whose warnings are exactly the single static
coordination-service-failure message, and the operation does not raise. -/
theorem C7_single_source_falsy_reply (option : ListApiOptions) :
    list_actors none option =
      .ok { data := none, warnings := some [GCS_QUERY_FAILURE_WARNING] } ∧
    list_placement_groups none option =
      .ok { data := none, warnings := some [GCS_QUERY_FAILURE_WARNING] } ∧
    list_nodes none option =
      .ok { data := none, warnings := some [GCS_QUERY_FAILURE_WARNING] } ∧
    list_workers none option =
      .ok { data := none, warnings := some [GCS_QUERY_FAILURE_WARNING] } :=
  ⟨rfl, rfl, rfl, rfl⟩

/-- C9: the claim states that list_jobs returns a mapping keyed by job
identifier with the job records as values. The code passes the job table
returned by the coordination service straight through _filter, which
iterates a dictionary by its keys, so with an empty filter the data is the
bare list of job identifiers with the records dropped, and with any
parsed filter clause the operation raises AttributeError on the first
key string. The job table itself is modelled from the spec. -/
theorem C9_list_jobs_returns_bare_identifiers :
    list_jobs [("job1", [("status", JVal.s "RUNNING")])] ⟨30, 10, ""⟩ =
      .ok { data := some ["job1"], warnings := none } ∧
    list_jobs [("job1", [("status", JVal.s "RUNNING")])] ⟨30, 10, "status=RUNNING"⟩ =
      .error "AttributeError" :=
  ⟨rfl, rfl⟩

/-- C5 counterexample: the claim states that a clause with an empty field
or value token is silently dropped, so adding it leaves the output
unchanged. The code only checks that the clause splits into exactly two
tokens, without requiring them non-empty: the clause a= is applied as the
constraint field a equals the empty string, which (the empty string being
falsy) excludes every record, while omitting the clause keeps them. -/
theorem C5_counterexample_empty_token_applied :
    _filter "a=" [[("a", JVal.s "v")]] = [] ∧
    _filter "" [[("a", JVal.s "v")]] = [[("a", JVal.s "v")]] :=
  ⟨rfl, rfl⟩

/-- C5 as amended: a filter clause is applied iff splitting it on the
equals sign yields exactly two tokens, whether or not they are empty; a
clause with zero or multiple equals signs is silently dropped without
error, so adding such a clause to the clause list produces the same
parsed constraints and the same filtered output as omitting it, while a
clause with exactly one equals sign is recorded even with empty tokens. -/
theorem C5_clause_applied_iff_two_tokens
    (kvs : List String) (kvBad kvGood kGood vGood : String) (data : List Record)
    (hbad : (pySplit kvBad '=').length ≠ 2)
    (hgood : pySplit kvGood '=' = [kGood, vGood]) :
    parse_kv_filters (kvs ++ [kvBad]) = parse_kv_filters kvs ∧
    _filter_clauses (kvs ++ [kvBad]) data = _filter_clauses kvs data ∧
    parse_kv_filters (kvs ++ [kvGood]) = dinsert kGood vGood (parse_kv_filters kvs) := by
  refine ⟨parse_kv_filters_append_drop kvs hbad, ?_, parse_kv_filters_append_apply kvs hgood⟩
  unfold _filter_clauses
  rw [parse_kv_filters_append_drop kvs hbad]

/-- Witness for C5 at the spec examples: the clause a=b=c is dropped and
the empty-value clause a= is applied. -/
theorem C5_clause_applied_iff_two_tokens_witness :
    (pySplit "a=b=c" '=').length ≠ 2 ∧
    pySplit "a=" '=' = ["a", ""] ∧
    (parse_kv_filters (["x=1"] ++ ["a=b=c"]) = parse_kv_filters ["x=1"] ∧
     _filter_clauses (["x=1"] ++ ["a=b=c"]) [[("x", JVal.s "1")]] =
       _filter_clauses ["x=1"] [[("x", JVal.s "1")]] ∧
     parse_kv_filters (["x=1"] ++ ["a="]) = dinsert "a" "" (parse_kv_filters ["x=1"])) :=
  ⟨by decide, by decide,
   C5_clause_applied_iff_two_tokens ["x=1"] "a=b=c" "a=" "a" "" [[("x", JVal.s "1")]]
     (by decide) (by decide)⟩

/-- C8 counterexample: the claim states that a fetched record whose
canonical identifier field is missing is silently dropped without warning
or exception. The code instead raises: with one succeeding peer returning
one task record without task_id, list_tasks raises KeyError from the sort
by task_id. -/
theorem C8_counterexample_missing_id_raises :
    list_tasks [Except.ok (some ⟨[[("foo", JVal.s "bar")]]⟩)] ⟨30, 10, ""⟩ =
      .error "KeyError" ∧
    list_actors (some [[("foo", JVal.s "bar")]]) ⟨30, 10, ""⟩ = .error "KeyError" :=
  ⟨rfl, rfl⟩

/-- C8 as amended: a successfully fetched record whose canonical
identifier field is missing is not silently dropped; if it survives the
filter, the list operation raises KeyError when sorting by the canonical
identifier, for actors and tasks alike. -/
theorem C8_missing_identifier_raises_key_error
    (msgs : List Record) (outcomes : List (Option TaskReply)) (option : ListApiOptions)
    (h1 : ∃ d ∈ _filter option.filter msgs, dlookup d "actor_id" = none)
    (h2 : ∃ d ∈ _filter option.filter (succTaskRecords outcomes),
            dlookup d "task_id" = none) :
    list_actors (some msgs) option = .error "KeyError" ∧
    list_tasks (outcomes.map Except.ok) option = .error "KeyError" := by
  constructor
  · have h1e := sortByStrKey_error h1
    simp only [list_actors, h1e]
  · have h2e := sortByStrKey_error h2
    simp only [list_tasks, gather_map_ok, tasksLoop_eq, h2e]

/-- Witness for C8 at one id-less actor record and one succeeding peer
with an id-less task record. -/
theorem C8_missing_identifier_raises_key_error_witness :
    (∃ d ∈ _filter "" [[("foo", JVal.s "bar")]], dlookup d "actor_id" = none) ∧
    (∃ d ∈ _filter "" (succTaskRecords [some ⟨[[("foo", JVal.s "bar")]]⟩]),
       dlookup d "task_id" = none) ∧
    (list_actors (some [[("foo", JVal.s "bar")]]) ⟨30, 10, ""⟩ = .error "KeyError" ∧
     list_tasks ([some ⟨[[("foo", JVal.s "bar")]]⟩].map Except.ok) ⟨30, 10, ""⟩ =
       .error "KeyError") :=
  ⟨⟨[("foo", JVal.s "bar")], List.mem_singleton.mpr rfl, rfl⟩,
   ⟨[("foo", JVal.s "bar")], List.mem_singleton.mpr rfl, rfl⟩,
   C8_missing_identifier_raises_key_error [[("foo", JVal.s "bar")]]
     [some ⟨[[("foo", JVal.s "bar")]]⟩] ⟨30, 10, ""⟩
     ⟨[("foo", JVal.s "bar")], List.mem_singleton.mpr rfl, rfl⟩
     ⟨[("foo", JVal.s "bar")], List.mem_singleton.mpr rfl, rfl⟩⟩

/-- C3 counterexample: the claim states that a per-peer sub-request that
raises is counted like any other failure and that the exception never
propagates. The gathers at lines 225-230 are issued without
return_exceptions=True, so a raising sub-request makes list_tasks itself
raise: with the first peer raising RuntimeError and the second returning a
task, the operation raises instead of warning. -/
theorem C3_counterexample_exception_propagates :
    list_tasks [Except.error "RuntimeError",
                Except.ok (some ⟨[[("task_id", JVal.s "t1")]]⟩)] ⟨30, 10, ""⟩ =
      .error "RuntimeError" :=
  rfl

theorem matchRecord_clausePairs_eq (kvs : List String) (d : Record)
    (hwf : kvs.all clauseOk = true) :
    matchRecord (clausePairs kvs) d =
      kvs.all fun kv =>
        match pySplit kv '=' with
        | [k, v] =>
          match dlookup d k with
          | some (JVal.s x) => x == v
          | _ => false
        | _ => true := by
  induction kvs with
  | nil => rfl
  | cons kv rest ih =>
    simp only [List.all_cons, Bool.and_eq_true] at hwf
    obtain ⟨hok, hrest⟩ := hwf
    rcases hs : pySplit kv '=' with _ | ⟨a, _ | ⟨b, _ | ⟨c, tl⟩⟩⟩
    · unfold clauseOk at hok; rw [hs] at hok; simp at hok
    · unfold clauseOk at hok; rw [hs] at hok; simp at hok
    · have hb : b ≠ "" := by
        unfold clauseOk at hok; rw [hs] at hok
        simp only [Bool.and_eq_true, Bool.not_eq_eq_eq_not, Bool.not_true, beq_eq_false_iff_ne,
          ne_eq] at hok
        exact hok.2
      have hpairs : clausePairs (kv :: rest) = (a, b) :: clausePairs rest := by
        simp [clausePairs, hs]
      rw [hpairs]
      simp only [matchRecord, List.all_cons]
      rw [hs, matchEntry_eq_spec hb]
      rw [show (clausePairs rest).all (fun cv => matchEntry d cv.1 cv.2) =
            matchRecord (clausePairs rest) d from rfl,
          ih hrest]
    · unfold clauseOk at hok; rw [hs] at hok; simp at hok

/-- C4 counterexample: the claim quantifies over every filter string made
of well-formed clauses, but with two clauses naming the same field the
parsed dictionary keeps only the last one: under a=1,a=2 the record with
field a equal to 2 is kept by the code, while no record can match every
clause, so the claimed characterisation fails. -/
theorem C4_counterexample_duplicate_fields :
    ((pySplit "a=1,a=2" ',').all clauseOk = true) ∧
    _filter "a=1,a=2" [[("a", JVal.s "2")]] = [[("a", JVal.s "2")]] ∧
    List.filter (specC4Keep "a=1,a=2") [[("a", JVal.s "2")]] = [] ∧
    ([[("a", JVal.s "2")]] : List Record) ≠ [] :=
  ⟨by decide, rfl, rfl, by simp⟩

/-- C4 as amended: for every filter string composed solely of well-formed
k=v clauses whose field names are pairwise distinct, the filtered output
is exactly the sublist of records that, for every clause, carry the field
with string value equal to the clause value (a record missing a filtered
field is excluded), and the empty filter string keeps every record; with a
repeated field name only the last clause for that field is applied. -/
theorem C4_filter_is_exact_conjunction (filters : String) (data : List Record)
    (hwf : (pySplit filters ',').all clauseOk = true)
    (hnd : ((clausePairs (pySplit filters ',')).map Prod.fst).Nodup) :
    _filter filters data = data.filter (specC4Keep filters) ∧
    _filter "" data = data := by
  constructor
  · unfold _filter _filter_clauses
    rw [parse_kv_filters_eq_clausePairs _ hnd]
    apply List.filter_congr
    intro d _
    exact matchRecord_clausePairs_eq (pySplit filters ',') d hwf
  · unfold _filter _filter_clauses
    rw [show parse_kv_filters (pySplit "" ',') = [] from rfl]
    apply List.filter_eq_self.mpr
    intro a _
    rfl

/-- Witness for C4 at the spec example: the filter
state=ALIVE,class_name=Foo over two actors keeps exactly the Foo one. -/
theorem C4_filter_is_exact_conjunction_witness :
    ((pySplit "state=ALIVE,class_name=Foo" ',').all clauseOk = true) ∧
    ((clausePairs (pySplit "state=ALIVE,class_name=Foo" ',')).map Prod.fst).Nodup ∧
    (_filter "state=ALIVE,class_name=Foo"
        [[("state", JVal.s "ALIVE"), ("class_name", JVal.s "Foo")],
         [("state", JVal.s "ALIVE"), ("class_name", JVal.s "Bar")]] =
      List.filter (specC4Keep "state=ALIVE,class_name=Foo")
        [[("state", JVal.s "ALIVE"), ("class_name", JVal.s "Foo")],
         [("state", JVal.s "ALIVE"), ("class_name", JVal.s "Bar")]] ∧
     _filter ""
        [[("state", JVal.s "ALIVE"), ("class_name", JVal.s "Foo")],
         [("state", JVal.s "ALIVE"), ("class_name", JVal.s "Bar")]] =
       [[("state", JVal.s "ALIVE"), ("class_name", JVal.s "Foo")],
        [("state", JVal.s "ALIVE"), ("class_name", JVal.s "Bar")]]) :=
  ⟨by decide, by decide,
   C4_filter_is_exact_conjunction "state=ALIVE,class_name=Foo"
     [[("state", JVal.s "ALIVE"), ("class_name", JVal.s "Foo")],
      [("state", JVal.s "ALIVE"), ("class_name", JVal.s "Bar")]]
     (by decide) (by decide)⟩

/-- C6 counterexample: the claim states that the number of entries in the
returned data always equals min(limit, records after filtering). With two
fetched actor records sharing the identifier a and limit 2, the keying
dictionary collapses them to one entry, so the data holds 1 entry while
min(2, 2) is 2. -/
theorem C6_counterexample_duplicate_identifiers :
    list_actors (some [[("actor_id", JVal.s "a")], [("actor_id", JVal.s "a")]]) ⟨30, 2, ""⟩ =
      .ok { data := some [("a", [("actor_id", JVal.s "a")])], warnings := none } ∧
    ([("a", [("actor_id", JVal.s "a")])] : KeyedData).length = 1 ∧
    min 2 (_filter "" [[("actor_id", JVal.s "a")], [("actor_id", JVal.s "a")]]).length = 2 := by
  have hsort : sortByStrKey "actor_id"
      (_filter "" [[("actor_id", JVal.s "a")], [("actor_id", JVal.s "a")]]) =
      .ok [[("actor_id", JVal.s "a")], [("actor_id", JVal.s "a")]] := by
    show sortByStrKey "actor_id"
      [[("actor_id", JVal.s "a")], [("actor_id", JVal.s "a")]] = _
    unfold sortByStrKey
    rw [if_pos (by decide), List.mergeSort_of_sorted (by decide)]
  refine ⟨?_, rfl, rfl⟩
  simp only [list_actors, hsort]
  rfl

/-- C6 as amended: for a list operation keyed by a canonical identifier,
as long as the filtered records carry pairwise-distinct identifiers, the
returned data has exactly min(limit, number of records after filtering)
entries, and it is the identifier-keyed image of the sorted filtered
records truncated to the limit, so truncation happens only after
filtering and sorting; records repeating an identifier would collapse
into one key. -/
theorem C6_limit_truncates_after_filter_and_sort
    (msgs : List Record) (option : ListApiOptions)
    (hid : ∀ d ∈ _filter option.filter msgs, (dlookup d "actor_id").isSome = true)
    (hnd : ((_filter option.filter msgs).map (idKey "actor_id")).Nodup) :
    ∃ sorted,
      sortByStrKey "actor_id" (_filter option.filter msgs) = .ok sorted ∧
      list_actors (some msgs) option =
        .ok { data := some (keyBy (idKey "actor_id") (sorted.take option.limit)),
              warnings := none } ∧
      (keyBy (idKey "actor_id") (sorted.take option.limit)).length =
        min option.limit (_filter option.filter msgs).length := by
  have hsort := sortByStrKey_ok hid
  refine ⟨_, hsort, ?_, ?_⟩
  · simp only [list_actors, hsort]
  · have hperm :
        (((_filter option.filter msgs).mergeSort
            (fun a b => strLe (idKey "actor_id" a) (idKey "actor_id" b))).map
          (idKey "actor_id")).Perm
          ((_filter option.filter msgs).map (idKey "actor_id")) :=
      (List.mergeSort_perm (_filter option.filter msgs) _).map _
    have hnd2 :
        (((_filter option.filter msgs).mergeSort
            (fun a b => strLe (idKey "actor_id" a) (idKey "actor_id" b))).map
          (idKey "actor_id")).Nodup :=
      hperm.symm.nodup hnd
    have hnd3 :
        ((((_filter option.filter msgs).mergeSort
            (fun a b => strLe (idKey "actor_id" a) (idKey "actor_id" b))).take
              option.limit).map (idKey "actor_id")).Nodup := by
      rw [List.map_take]
      exact List.Nodup.sublist (List.take_sublist _ _) hnd2
    rw [keyBy_length _ _ hnd3, List.length_take, List.length_mergeSort]

/-- Witness for C6: two distinct actors and limit 1 keep exactly one
entry. -/
theorem C6_limit_truncates_after_filter_and_sort_witness :
    (∀ d ∈ _filter "" [[("actor_id", JVal.s "a")], [("actor_id", JVal.s "b")]],
       (dlookup d "actor_id").isSome = true) ∧
    ((_filter "" [[("actor_id", JVal.s "a")], [("actor_id", JVal.s "b")]]).map
      (idKey "actor_id")).Nodup ∧
    (∃ sorted,
      sortByStrKey "actor_id"
          (_filter "" [[("actor_id", JVal.s "a")], [("actor_id", JVal.s "b")]]) =
        .ok sorted ∧
      list_actors (some [[("actor_id", JVal.s "a")], [("actor_id", JVal.s "b")]])
          ⟨30, 1, ""⟩ =
        .ok { data := some (keyBy (idKey "actor_id") (sorted.take 1)),
              warnings := none } ∧
      (keyBy (idKey "actor_id") (sorted.take 1)).length =
        min 1 (_filter "" [[("actor_id", JVal.s "a")], [("actor_id", JVal.s "b")]]).length) :=
  ⟨by decide, by decide,
   C6_limit_truncates_after_filter_and_sort
     [[("actor_id", JVal.s "a")], [("actor_id", JVal.s "b")]] ⟨30, 1, ""⟩
     (by decide) (by decide)⟩

/-- C2: for each fan-out list operation (tasks, objects, runtime
environments), when F of the T registered peers settle with a falsy reply
and the rest with data, the result carries exactly one warning formatted
from the matching template with total T and network_failures F when F is
nonzero and no warning when F is zero, and every record in the returned
data comes from the succeeding peers only. The per-peer total is the
length of the outcome list, one outcome per registered peer. The objects
leg goes through construct_memory_table, which is modelled from the
spec. -/
theorem C2_fanout_warning_counts_and_data_provenance
    (taskReplies : List (Option TaskReply)) (objReplies : List (Option ObjectReply))
    (envReplies : List (Option RuntimeEnvReply)) (option : ListApiOptions)
    (htask : ∀ d ∈ succTaskRecords taskReplies, (dlookup d "task_id").isSome = true)
    (hobj : ∀ d ∈ construct_memory_table (succWorkerStats objReplies),
        (dlookup d "object_ref").isSome = true)
    (henv : ∀ d ∈ succEnvStates envReplies,
        (dlookup d "runtime_env").isSome = true ∧ (dlookup d "ref_cnt").isSome = true) :
    (∃ res, list_tasks (taskReplies.map Except.ok) option = .ok res ∧
       res.warnings =
         (if taskReplies.countP (fun r => r.isNone) ≠ 0 then
            some [RAYLET_QUERY_FAILURE_WARNING taskReplies.length
                    (taskReplies.countP (fun r => r.isNone))]
          else none) ∧
       ∀ p ∈ res.data.getD [], p.2 ∈ succTaskRecords taskReplies) ∧
    (∃ res, list_objects (objReplies.map Except.ok) option = .ok res ∧
       res.warnings =
         (if objReplies.countP (fun r => r.isNone) ≠ 0 then
            some [RAYLET_QUERY_FAILURE_WARNING objReplies.length
                    (objReplies.countP (fun r => r.isNone))]
          else none) ∧
       ∀ p ∈ res.data.getD [],
         p.2 ∈ (construct_memory_table (succWorkerStats objReplies)).map objectRenameT) ∧
    (∃ res, list_runtime_envs (envReplies.map Except.ok) option = .ok res ∧
       res.warnings =
         (if envReplies.countP (fun r => r.isNone) ≠ 0 then
            some [AGENT_QUERY_FAILURE_WARNING envReplies.length
                    (envReplies.countP (fun r => r.isNone))]
          else none) ∧
       ∀ r ∈ res.data.getD [], r ∈ (succEnvStates envReplies).map decodeREnvT) := by
  refine ⟨?_, ?_, ?_⟩
  · -- tasks
    have hsort := sortByStrKey_ok
      (fun d hd => htask d (_filter_subset option.filter (succTaskRecords taskReplies) hd))
    refine ⟨⟨some (keyBy (idKey "task_id")
          (((_filter option.filter (succTaskRecords taskReplies)).mergeSort
            (fun a b => strLe (idKey "task_id" a) (idKey "task_id" b))).take option.limit)),
          if taskReplies.countP (fun r => r.isNone) ≠ 0 then
            some [RAYLET_QUERY_FAILURE_WARNING taskReplies.length
                    (taskReplies.countP (fun r => r.isNone))]
          else none⟩, ?_, rfl, ?_⟩
    · simp only [list_tasks, gather_map_ok, tasksLoop_eq, hsort]
    · intro p hp
      have h1 := mem_keyBy (idKey "task_id") _ hp
      have h2 := List.take_subset option.limit _ h1
      have h3 := List.mem_mergeSort.mp h2
      exact _filter_subset option.filter _ h3
  · -- objects
    have hmapo :
        mapExcept objectRename (construct_memory_table (succWorkerStats objReplies)) =
          .ok ((construct_memory_table (succWorkerStats objReplies)).map objectRenameT) :=
      mapExcept_eq_ok (fun d hd => objectRename_ok (hobj d hd))
    have hsort : sortByStrKey "object_id"
        (_filter option.filter
          ((construct_memory_table (succWorkerStats objReplies)).map objectRenameT)) =
        .ok ((_filter option.filter
          ((construct_memory_table (succWorkerStats objReplies)).map objectRenameT)).mergeSort
            (fun a b => strLe (idKey "object_id" a) (idKey "object_id" b))) := by
      apply sortByStrKey_ok
      intro d hd
      rcases List.mem_map.mp (_filter_subset option.filter _ hd) with ⟨d0, _, rfl⟩
      exact objectRenameT_has_id d0
    refine ⟨⟨some (keyBy (idKey "object_id")
          (((_filter option.filter
              ((construct_memory_table (succWorkerStats objReplies)).map objectRenameT)).mergeSort
            (fun a b => strLe (idKey "object_id" a) (idKey "object_id" b))).take option.limit)),
          if objReplies.countP (fun r => r.isNone) ≠ 0 then
            some [RAYLET_QUERY_FAILURE_WARNING objReplies.length
                    (objReplies.countP (fun r => r.isNone))]
          else none⟩, ?_, rfl, ?_⟩
    · simp only [list_objects, gather_map_ok, objectsLoop_eq, hmapo, hsort]
    · intro p hp
      have h1 := mem_keyBy (idKey "object_id") _ hp
      have h2 := List.take_subset option.limit _ h1
      have h3 := List.mem_mergeSort.mp h2
      exact _filter_subset option.filter _ h3
  · -- runtime environments
    have hloop := envsLoop_eq envReplies (fun d hd => (henv d hd).1)
    have hsort : sortByIntKey "ref_cnt"
        (_filter option.filter ((succEnvStates envReplies).map decodeREnvT)) =
        .ok ((_filter option.filter ((succEnvStates envReplies).map decodeREnvT)).mergeSort
            (fun a b => decide (intKey "ref_cnt" a ≤ intKey "ref_cnt" b))) := by
      apply sortByIntKey_ok
      intro d hd
      rcases List.mem_map.mp (_filter_subset option.filter _ hd) with ⟨d0, hd0, rfl⟩
      exact decodeREnvT_ref_cnt (henv d0 hd0).2
    refine ⟨⟨some
          (((_filter option.filter ((succEnvStates envReplies).map decodeREnvT)).mergeSort
            (fun a b => decide (intKey "ref_cnt" a ≤ intKey "ref_cnt" b))).take option.limit),
          if envReplies.countP (fun r => r.isNone) ≠ 0 then
            some [AGENT_QUERY_FAILURE_WARNING envReplies.length
                    (envReplies.countP (fun r => r.isNone))]
          else none⟩, ?_, rfl, ?_⟩
    · simp only [list_runtime_envs, gather_map_ok, hloop, hsort]
    · intro r hr
      have h2 := List.take_subset option.limit _ hr
      have h3 := List.mem_mergeSort.mp h2
      exact _filter_subset option.filter _ h3

/-- Concrete task fan-out outcome used by the C2 and C3 witnesses: one
succeeding peer, one falsy peer. -/
def c2TaskReplies : List (Option TaskReply) :=
  [some ⟨[[("task_id", JVal.s "t1")]]⟩, none]

/-- Concrete object fan-out outcome used by the C2 and C3 witnesses. -/
def c2ObjReplies : List (Option ObjectReply) :=
  [some ⟨[⟨[[("object_ref", JVal.s "o1")]]⟩]⟩, none]

/-- Concrete runtime-env fan-out outcome used by the C2 and C3 witnesses. -/
def c2EnvReplies : List (Option RuntimeEnvReply) :=
  [some ⟨[[("runtime_env", JVal.s "e"), ("ref_cnt", JVal.n 1)]]⟩, none]

/-- Witness for C2 with two registered peers per operation, one
succeeding and one failing. -/
theorem C2_fanout_warning_counts_and_data_provenance_witness :
    (∀ d ∈ succTaskRecords c2TaskReplies, (dlookup d "task_id").isSome = true) ∧
    (∀ d ∈ construct_memory_table (succWorkerStats c2ObjReplies),
       (dlookup d "object_ref").isSome = true) ∧
    (∀ d ∈ succEnvStates c2EnvReplies,
       (dlookup d "runtime_env").isSome = true ∧ (dlookup d "ref_cnt").isSome = true) ∧
    ((∃ res, list_tasks (c2TaskReplies.map Except.ok) ⟨30, 10, ""⟩ = .ok res ∧
       res.warnings =
         (if c2TaskReplies.countP (fun r => r.isNone) ≠ 0 then
            some [RAYLET_QUERY_FAILURE_WARNING c2TaskReplies.length
                    (c2TaskReplies.countP (fun r => r.isNone))]
          else none) ∧
       ∀ p ∈ res.data.getD [], p.2 ∈ succTaskRecords c2TaskReplies) ∧
     (∃ res, list_objects (c2ObjReplies.map Except.ok) ⟨30, 10, ""⟩ = .ok res ∧
       res.warnings =
         (if c2ObjReplies.countP (fun r => r.isNone) ≠ 0 then
            some [RAYLET_QUERY_FAILURE_WARNING c2ObjReplies.length
                    (c2ObjReplies.countP (fun r => r.isNone))]
          else none) ∧
       ∀ p ∈ res.data.getD [],
         p.2 ∈ (construct_memory_table (succWorkerStats c2ObjReplies)).map objectRenameT) ∧
     (∃ res, list_runtime_envs (c2EnvReplies.map Except.ok) ⟨30, 10, ""⟩ = .ok res ∧
       res.warnings =
         (if c2EnvReplies.countP (fun r => r.isNone) ≠ 0 then
            some [AGENT_QUERY_FAILURE_WARNING c2EnvReplies.length
                    (c2EnvReplies.countP (fun r => r.isNone))]
          else none) ∧
       ∀ r ∈ res.data.getD [], r ∈ (succEnvStates c2EnvReplies).map decodeREnvT)) :=
  ⟨by decide, by decide, by decide,
   C2_fanout_warning_counts_and_data_provenance c2TaskReplies c2ObjReplies c2EnvReplies
     ⟨30, 10, ""⟩ (by decide) (by decide) (by decide)⟩

/-- C3 as amended, for every fan-out list operation (tasks, objects,
runtime environments): a per-peer sub-request that settles with a falsy
reply is counted toward the failure count and converted to a warning, the
operation does not raise on its account, and the data is built exactly
from the surviving peers through the filter, sort and truncation
pipeline; but a per-peer sub-request that raises an exception propagates
it out of the list operation (each gather is issued without
return_exceptions), producing no result and no warning. -/
theorem C3_falsy_warns_exception_propagates
    (taskReplies : List (Option TaskReply)) (objReplies : List (Option ObjectReply))
    (envReplies : List (Option RuntimeEnvReply))
    (preT : List (Option TaskReply)) (preO : List (Option ObjectReply))
    (preE : List (Option RuntimeEnvReply)) (e : String)
    (postT : List (Except String (Option TaskReply)))
    (postO : List (Except String (Option ObjectReply)))
    (postE : List (Except String (Option RuntimeEnvReply)))
    (option : ListApiOptions)
    (htask : ∀ d ∈ succTaskRecords taskReplies, (dlookup d "task_id").isSome = true)
    (hobj : ∀ d ∈ construct_memory_table (succWorkerStats objReplies),
        (dlookup d "object_ref").isSome = true)
    (henv : ∀ d ∈ succEnvStates envReplies,
        (dlookup d "runtime_env").isSome = true ∧ (dlookup d "ref_cnt").isSome = true) :
    (∃ sorted,
       sortByStrKey "task_id" (_filter option.filter (succTaskRecords taskReplies)) =
         .ok sorted ∧
       list_tasks (taskReplies.map Except.ok) option =
         .ok ⟨some (keyBy (idKey "task_id") (sorted.take option.limit)),
           if taskReplies.countP (fun r => r.isNone) ≠ 0 then
             some [RAYLET_QUERY_FAILURE_WARNING taskReplies.length
                     (taskReplies.countP (fun r => r.isNone))]
           else none⟩) ∧
    (∃ sorted,
       sortByStrKey "object_id" (_filter option.filter
           ((construct_memory_table (succWorkerStats objReplies)).map objectRenameT)) =
         .ok sorted ∧
       list_objects (objReplies.map Except.ok) option =
         .ok ⟨some (keyBy (idKey "object_id") (sorted.take option.limit)),
           if objReplies.countP (fun r => r.isNone) ≠ 0 then
             some [RAYLET_QUERY_FAILURE_WARNING objReplies.length
                     (objReplies.countP (fun r => r.isNone))]
           else none⟩) ∧
    (∃ sorted,
       sortByIntKey "ref_cnt" (_filter option.filter
           ((succEnvStates envReplies).map decodeREnvT)) = .ok sorted ∧
       list_runtime_envs (envReplies.map Except.ok) option =
         .ok ⟨some (sorted.take option.limit),
           if envReplies.countP (fun r => r.isNone) ≠ 0 then
             some [AGENT_QUERY_FAILURE_WARNING envReplies.length
                     (envReplies.countP (fun r => r.isNone))]
           else none⟩) ∧
    list_tasks (preT.map Except.ok ++ Except.error e :: postT) option = .error e ∧
    list_objects (preO.map Except.ok ++ Except.error e :: postO) option = .error e ∧
    list_runtime_envs (preE.map Except.ok ++ Except.error e :: postE) option = .error e := by
  refine ⟨?_, ?_, ?_, ?_, ?_, ?_⟩
  · have hsort := sortByStrKey_ok
      (fun d hd => htask d (_filter_subset option.filter (succTaskRecords taskReplies) hd))
    refine ⟨_, hsort, ?_⟩
    simp only [list_tasks, gather_map_ok, tasksLoop_eq, hsort]
  · have hmapo :
        mapExcept objectRename (construct_memory_table (succWorkerStats objReplies)) =
          .ok ((construct_memory_table (succWorkerStats objReplies)).map objectRenameT) :=
      mapExcept_eq_ok (fun d hd => objectRename_ok (hobj d hd))
    have hsort : sortByStrKey "object_id"
        (_filter option.filter
          ((construct_memory_table (succWorkerStats objReplies)).map objectRenameT)) =
        .ok ((_filter option.filter
          ((construct_memory_table (succWorkerStats objReplies)).map objectRenameT)).mergeSort
            (fun a b => strLe (idKey "object_id" a) (idKey "object_id" b))) := by
      apply sortByStrKey_ok
      intro d hd
      rcases List.mem_map.mp (_filter_subset option.filter _ hd) with ⟨d0, _, rfl⟩
      exact objectRenameT_has_id d0
    refine ⟨_, hsort, ?_⟩
    simp only [list_objects, gather_map_ok, objectsLoop_eq, hmapo, hsort]
  · have hloop := envsLoop_eq envReplies (fun d hd => (henv d hd).1)
    have hsort : sortByIntKey "ref_cnt"
        (_filter option.filter ((succEnvStates envReplies).map decodeREnvT)) =
        .ok ((_filter option.filter ((succEnvStates envReplies).map decodeREnvT)).mergeSort
            (fun a b => decide (intKey "ref_cnt" a ≤ intKey "ref_cnt" b))) := by
      apply sortByIntKey_ok
      intro d hd
      rcases List.mem_map.mp (_filter_subset option.filter _ hd) with ⟨d0, hd0, rfl⟩
      exact decodeREnvT_ref_cnt (henv d0 hd0).2
    refine ⟨_, hsort, ?_⟩
    simp only [list_runtime_envs, gather_map_ok, hloop, hsort]
  · simp only [list_tasks, gather_first_error]
  · simp only [list_objects, gather_first_error]
  · simp only [list_runtime_envs, gather_first_error]

/-- Witness for C3: for each of the three fan-out operations, one
succeeding peer and one falsy peer for the warning side, and a raising
peer appended after them for the propagation side. -/
theorem C3_falsy_warns_exception_propagates_witness :
    (∀ d ∈ succTaskRecords c2TaskReplies, (dlookup d "task_id").isSome = true) ∧
    (∀ d ∈ construct_memory_table (succWorkerStats c2ObjReplies),
       (dlookup d "object_ref").isSome = true) ∧
    (∀ d ∈ succEnvStates c2EnvReplies,
       (dlookup d "runtime_env").isSome = true ∧ (dlookup d "ref_cnt").isSome = true) ∧
    ((∃ sorted,
        sortByStrKey "task_id" (_filter "" (succTaskRecords c2TaskReplies)) = .ok sorted ∧
        list_tasks (c2TaskReplies.map Except.ok) ⟨30, 10, ""⟩ =
          .ok ⟨some (keyBy (idKey "task_id") (sorted.take 10)),
            if c2TaskReplies.countP (fun r => r.isNone) ≠ 0 then
              some [RAYLET_QUERY_FAILURE_WARNING c2TaskReplies.length
                      (c2TaskReplies.countP (fun r => r.isNone))]
            else none⟩) ∧
     (∃ sorted,
        sortByStrKey "object_id" (_filter ""
            ((construct_memory_table (succWorkerStats c2ObjReplies)).map objectRenameT)) =
          .ok sorted ∧
        list_objects (c2ObjReplies.map Except.ok) ⟨30, 10, ""⟩ =
          .ok ⟨some (keyBy (idKey "object_id") (sorted.take 10)),
            if c2ObjReplies.countP (fun r => r.isNone) ≠ 0 then
              some [RAYLET_QUERY_FAILURE_WARNING c2ObjReplies.length
                      (c2ObjReplies.countP (fun r => r.isNone))]
            else none⟩) ∧
     (∃ sorted,
        sortByIntKey "ref_cnt" (_filter "" ((succEnvStates c2EnvReplies).map decodeREnvT)) =
          .ok sorted ∧
        list_runtime_envs (c2EnvReplies.map Except.ok) ⟨30, 10, ""⟩ =
          .ok ⟨some (sorted.take 10),
            if c2EnvReplies.countP (fun r => r.isNone) ≠ 0 then
              some [AGENT_QUERY_FAILURE_WARNING c2EnvReplies.length
                      (c2EnvReplies.countP (fun r => r.isNone))]
            else none⟩) ∧
     list_tasks (c2TaskReplies.map Except.ok ++ Except.error "RuntimeError" :: [])
         ⟨30, 10, ""⟩ = .error "RuntimeError" ∧
     list_objects (c2ObjReplies.map Except.ok ++ Except.error "RuntimeError" :: [])
         ⟨30, 10, ""⟩ = .error "RuntimeError" ∧
     list_runtime_envs (c2EnvReplies.map Except.ok ++ Except.error "RuntimeError" :: [])
         ⟨30, 10, ""⟩ = .error "RuntimeError") :=
  ⟨by decide, by decide, by decide,
   C3_falsy_warns_exception_propagates c2TaskReplies c2ObjReplies c2EnvReplies
     c2TaskReplies c2ObjReplies c2EnvReplies "RuntimeError" [] [] [] ⟨30, 10, ""⟩
     (by decide) (by decide) (by decide)⟩
